import Mathlib

/-!
Verification of the reverse-proxy / CORS-relay handler (`api/proxy.ts`) and the
thumbnail utilities (`app/utils/imageUtils.ts`) of the crystal-cloud-podcast
frontend, against the repository's specification.

The JavaScript sources are shallowly embedded: the stateful request/response
handling becomes explicit state passing over Lean structures, the `fetch`
outcome becomes an explicit parameter, and the WHATWG `Response` body-reuse
rule (a body may be consumed only once) is modelled with a `bodyUsed` flag.
-/

set_option autoImplicit false

namespace CCP

/-! ## JavaScript value model

`JsValue` models the JSON-compatible JavaScript values that flow through the
handler: request bodies, response payloads and error envelopes. Arrays and
objects are represented by mutual inductives so that recursion over them stays
structural. -/

mutual

inductive JsValue where
  | null
  | boolean (b : Bool)
  | num (n : Int)
  | str (s : String)
  | arr (xs : JsArr)
  | obj (fs : JsObj)

inductive JsArr where
  | nil
  | cons (v : JsValue) (rest : JsArr)

inductive JsObj where
  | nil
  | cons (k : String) (v : JsValue) (rest : JsObj)

end

/-- Looks up a field of a JavaScript object (first occurrence wins, as for the
unique keys of a JS object literal). -/
def JsObj.field : JsObj → String → Option JsValue
  | .nil, _ => none
  | .cons k v rest, key => if k = key then some v else rest.field key

/-- Field lookup on an arbitrary `JsValue` (`none` on non-objects). -/
def JsValue.field : JsValue → String → Option JsValue
  | .obj fs, key => fs.field key
  | _, _ => none

/-- The string content of a `JsValue`, when it is a string. -/
def JsValue.asString : JsValue → Option String
  | .str s => some s
  | _ => none

/-! ### JSON.stringify -/

/-- One character of a JSON string literal, escaped as `JSON.stringify` does. -/
def jsonEscapeChar (c : Char) : String :=
  if c = '"' then "\\\""
  else if c = '\\' then "\\\\"
  else if c = '\n' then "\\n"
  else if c = '\t' then "\\t"
  else if c = '\r' then "\\r"
  else if c.toNat < 32 then
    -- other control characters: \u00XX
    let hex : Nat → Char := fun n => if n < 10 then Char.ofNat (48 + n) else Char.ofNat (87 + n)
    "\\u00" ++ String.mk [hex (c.toNat / 16), hex (c.toNat % 16)]
  else String.mk [c]

/-- A JSON string literal: quotes around the escaped characters. -/
def jsonQuote (s : String) : String :=
  "\"" ++ String.join (s.data.map jsonEscapeChar) ++ "\""

mutual

/-- Model of `JSON.stringify` on JSON-compatible values. -/
def jsonStringify : JsValue → String
  | .null => "null"
  | .boolean true => "true"
  | .boolean false => "false"
  | .num n => toString n
  | .str s => jsonQuote s
  | .arr xs => "[" ++ jsonStringifyArr xs ++ "]"
  | .obj fs => "\x7b" ++ jsonStringifyObj fs ++ "\x7d"

def jsonStringifyArr : JsArr → String
  | .nil => ""
  | .cons v .nil => jsonStringify v
  | .cons v rest => jsonStringify v ++ "," ++ jsonStringifyArr rest

def jsonStringifyObj : JsObj → String
  | .nil => ""
  | .cons k v .nil => jsonQuote k ++ ":" ++ jsonStringify v
  | .cons k v rest => jsonQuote k ++ ":" ++ jsonStringify v ++ "," ++ jsonStringifyObj rest

end

/-! ### JSON.parse

A fuel-indexed recursive-descent parser modelling the platform's `JSON.parse`
(the relay calls it through `Response.json()`). -/

def jsonWs (c : Char) : Bool :=
  c = ' ' ∨ c = '\n' ∨ c = '\t' ∨ c = '\r'

def jsonSkipWs : List Char → List Char
  | [] => []
  | c :: cs => if jsonWs c then jsonSkipWs cs else c :: cs

/-- Parses the inside of a JSON string literal up to the closing quote. -/
def jsonParseStr : Nat → List Char → Except String (List Char × List Char)
  | 0, _ => .error "Unexpected end of JSON input"
  | _ + 1, [] => .error "Unexpected end of JSON input"
  | fuel + 1, c :: cs =>
    if c = '"' then .ok ([], cs)
    else if c = '\\' then
      match cs with
      | [] => .error "Unexpected end of JSON input"
      | e :: cs2 =>
        let dec : Option Char :=
          if e = '"' then some '"'
          else if e = '\\' then some '\\'
          else if e = '/' then some '/'
          else if e = 'n' then some '\n'
          else if e = 't' then some '\t'
          else if e = 'r' then some '\r'
          else if e = 'b' then some (Char.ofNat 8)
          else if e = 'f' then some (Char.ofNat 12)
          else none
        match dec with
        | some d => (jsonParseStr fuel cs2).map (fun p => (d :: p.1, p.2))
        | none => .error "Bad escaped character in JSON"
    else (jsonParseStr fuel cs).map (fun p => (c :: p.1, p.2))

def jsonDigits : List Char → List Char × List Char :=
  fun cs => (cs.takeWhile Char.isDigit, cs.dropWhile Char.isDigit)

def jsonDigitsToNat (cs : List Char) : Nat :=
  cs.foldl (fun n c => n * 10 + (c.toNat - 48)) 0

mutual

/-- Parses one JSON value, returning it with the unconsumed rest. -/
def jsonParseVal : Nat → List Char → Except String (JsValue × List Char)
  | 0, _ => .error "Unexpected end of JSON input"
  | fuel + 1, cs =>
    match jsonSkipWs cs with
    | [] => .error "Unexpected end of JSON input"
    | 'n' :: 'u' :: 'l' :: 'l' :: rest => .ok (.null, rest)
    | 't' :: 'r' :: 'u' :: 'e' :: rest => .ok (.boolean true, rest)
    | 'f' :: 'a' :: 'l' :: 's' :: 'e' :: rest => .ok (.boolean false, rest)
    | '"' :: rest =>
      (jsonParseStr fuel rest).map (fun p => (.str (String.mk p.1), p.2))
    | '-' :: rest =>
      match jsonDigits rest with
      | ([], _) => .error "Unexpected token in JSON"
      | (ds, rest2) => .ok (.num (-(jsonDigitsToNat ds : Int)), rest2)
    | c :: rest =>
      if c.isDigit then
        match jsonDigits (c :: rest) with
        | (ds, rest2) => .ok (.num (jsonDigitsToNat ds : Int), rest2)
      else if c = Char.ofNat 91 then
        -- '[' : array
        match jsonSkipWs rest with
        | c2 :: rest2 =>
          if c2 = Char.ofNat 93 then .ok (.arr .nil, rest2)
          else (jsonParseArr fuel (jsonSkipWs rest)).map (fun p => (.arr p.1, p.2))
        | [] => .error "Unexpected end of JSON input"
      else if c = Char.ofNat 123 then
        -- open brace: object
        match jsonSkipWs rest with
        | c2 :: rest2 =>
          if c2 = Char.ofNat 125 then .ok (.obj .nil, rest2)
          else (jsonParseObj fuel (jsonSkipWs rest)).map (fun p => (.obj p.1, p.2))
        | [] => .error "Unexpected end of JSON input"
      else .error "Unexpected token in JSON"

/-- Parses the comma-separated items of a non-empty JSON array, including the
closing bracket. -/
def jsonParseArr : Nat → List Char → Except String (JsArr × List Char)
  | 0, _ => .error "Unexpected end of JSON input"
  | fuel + 1, cs => do
    let (v, rest) ← jsonParseVal fuel cs
    match jsonSkipWs rest with
    | c :: rest2 =>
      if c = ',' then (jsonParseArr fuel rest2).map (fun p => (.cons v p.1, p.2))
      else if c = Char.ofNat 93 then .ok (.cons v .nil, rest2)
      else .error "Unexpected token in JSON"
    | [] => .error "Unexpected end of JSON input"

/-- Parses the comma-separated members of a non-empty JSON object, including
the closing brace. -/
def jsonParseObj : Nat → List Char → Except String (JsObj × List Char)
  | 0, _ => .error "Unexpected end of JSON input"
  | fuel + 1, cs =>
    match jsonSkipWs cs with
    | '"' :: rest => do
      let (kcs, rest2) ← jsonParseStr fuel rest
      match jsonSkipWs rest2 with
      | ':' :: rest3 => do
        let (v, rest4) ← jsonParseVal fuel rest3
        match jsonSkipWs rest4 with
        | c :: rest5 =>
          if c = ',' then
            (jsonParseObj fuel rest5).map (fun p => (.cons (String.mk kcs) v p.1, p.2))
          else if c = Char.ofNat 125 then .ok (.cons (String.mk kcs) v .nil, rest5)
          else .error "Unexpected token in JSON"
        | [] => .error "Unexpected end of JSON input"
      | _ => .error "Unexpected token in JSON"
    | _ => .error "Unexpected token in JSON"

end

/-- Model of `JSON.parse`: parse one value, then require only whitespace after
it. -/
def jsonParse (s : String) : Except String JsValue :=
  match jsonParseVal (2 * s.data.length + 2) s.data with
  | .error m => .error m
  | .ok (v, rest) =>
    match jsonSkipWs rest with
    | [] => .ok v
    | _ => .error "Unexpected non-whitespace character after JSON"

/-! ## Header maps

Node lowercases incoming request-header names, `ServerResponse.setHeader` is
case-insensitive (setting a name replaces any earlier value whose name differs
only in case), and undici's `Headers.entries()` yields lowercase names. We
model response-header state as an association list whose stored names are
lowercased on insertion. -/

/-- ASCII lowercasing of one character. -/
def lowerChar (c : Char) : Char :=
  if 'A' ≤ c ∧ c ≤ 'Z' then Char.ofNat (c.toNat + 32) else c

/-- ASCII lowercasing of a header name. -/
def lowerStr (s : String) : String :=
  String.mk (s.data.map lowerChar)

/-- Model of `res.setHeader(k, v)`: replace the (case-insensitively) matching
entry, or append a new one; names are stored lowercased. -/
def setHdr : List (String × String) → String → String → List (String × String)
  | [], k, v => [(lowerStr k, v)]
  | (k0, v0) :: rest, k, v =>
    if k0 = lowerStr k then (k0, v) :: rest else (k0, v0) :: setHdr rest k v

/-- Case-insensitive lookup of a response header. -/
def getHdr : List (String × String) → String → Option String
  | [], _ => none
  | (k0, v0) :: rest, k => if k0 = lowerStr k then some v0 else getHdr rest k

/-- Copies headers into the response one by one with `res.setHeader`, in
iteration order (the `for ... of responseHeaders.entries()` loop). -/
def copyHeaders (init : List (String × String)) (l : List (String × String)) :
    List (String × String) :=
  l.foldl (fun acc p => setHdr acc p.1 p.2) init

/-- Lookup in a plain JavaScript object used as a string map (request headers,
whose names Node has already lowercased). -/
def lookupObj : List (String × String) → String → Option String
  | [], _ => none
  | (k0, v0) :: rest, k => if k0 = k then some v0 else lookupObj rest k

/-- Setting a property of a plain JavaScript object: an existing key keeps its
position and gets the new value, a new key is appended (the semantics of
`\x7b ...spread, host: value \x7d`). -/
def objSet : List (String × String) → String → String → List (String × String)
  | [], k, v => [(k, v)]
  | (k0, v0) :: rest, k, v =>
    if k0 = k then (k0, v) :: rest else (k0, v0) :: objSet rest k v

/-- `pre` is a prefix of `s` (model of `String.startsWith`, kept structural so
that proofs can evaluate it). -/
def strStarts (pre s : String) : Bool :=
  pre.data.isPrefixOf s.data

/-! ## The proxy handler of `api/proxy.ts`

`sendLog` and the `console` calls only post diagnostics to an external log
endpoint and swallow their own failures; they do not touch the backend and do
not influence the response, so they are not part of the embedded state. The
single outbound backend call (`fetch(targetUrl, ...)`) is tracked in the
result's `sent` field. -/

/-- `allowedOrigins` from `api/proxy.ts` lines 4–15 (`.filter(Boolean)` drops
nothing: every entry is a non-empty string). -/
def allowedOrigins : List String :=
  [ "https://backend.terrainfinity.ca",
    "http://backend.terrainfinity.ca",
    "https://crystalcloudpodcast.terrainfinity.ca",
    "http://crystalcloudpodcast.terrainfinity.ca",
    "https://bambicloudpodcast.terrainfinity.ca",
    "http://bambicloudpodcast.terrainfinity.ca",
    "https://glaumcloudpodcast.terrainfinity.ca",
    "http://glaumcloudpodcast.terrainfinity.ca",
    "http://localhost:3000",
    "http://localhost" ]

/-- The environment variables the handler reads (`none` = unset). -/
structure ProxyEnv where
  frontendUrl : Option String
  backendUrl : Option String
  vercelEnv : Option String

/-- The inbound `VercelRequest`: method, URL, Node-lowercased headers, parsed
body. -/
structure ProxyReq where
  method : String
  url : Option String
  headers : List (String × String)
  body : JsValue

/-- What the backend's `fetch` promise resolves to on success: status, headers
(as undici exposes them, lowercase names), and the raw body text. -/
structure BackendResponse where
  status : Nat
  headers : List (String × String)
  bodyText : String

/-- A thrown JavaScript value, as the `catch` blocks classify it. -/
inductive JsError where
  | err (message : String)
  | strVal (s : String)
  | otherVal (rendered : String)

/-- The handler's error-message extraction (`error instanceof Error ?
error.message : typeof error === 'string' ? error : String(error)`). -/
def JsError.toMessage : JsError → String
  | .err m => m
  | .strVal s => s
  | .otherVal r => r

/-- Outcome of the outbound `fetch` call, were it to be made. -/
inductive FetchOutcome where
  | ok (r : BackendResponse)
  | fail (e : JsError)

/-- The outbound request the handler hands to `fetch`. -/
structure SentRequest where
  url : String
  method : String
  headers : List (String × String)
  body : Option String

/-- The relayed response: final status, response headers (as accumulated by
`setHeader`), the payload passed to `res.send`/`res.json` (`none` for a bare
`res.end()`), and the backend request that was sent (`none` when no backend
call happened). -/
structure ProxyResult where
  status : Nat
  headers : List (String × String)
  body : Option JsValue
  sent : Option SentRequest

/-- An undici `Response` with its one-shot body. -/
structure JsResponse where
  status : Nat
  headers : List (String × String)
  bodyText : String
  bodyUsed : Bool

/-- `response.ok`: status in the inclusive range 200–299. -/
def JsResponse.okStatus (r : JsResponse) : Bool :=
  200 ≤ r.status ∧ r.status ≤ 299

/-- `response.text()`: yields the body text and marks the body consumed; a
second consumption throws `TypeError: Body is unusable`. -/
def JsResponse.textRead (r : JsResponse) : Except String (String × JsResponse) :=
  if r.bodyUsed then .error "Body is unusable"
  else .ok (r.bodyText, { r with bodyUsed := true })

/-- `response.json()`: like `text()` but parses the body as JSON; consuming an
already-used body throws `TypeError: Body is unusable`. -/
def JsResponse.jsonRead (r : JsResponse) : Except String (JsValue × JsResponse) :=
  if r.bodyUsed then .error "Body is unusable"
  else
    match jsonParse r.bodyText with
    | .ok v => .ok (v, { r with bodyUsed := true })
    | .error m => .error m

/-- The JSON error envelope `\x7b error, details \x7d` of the catch block. -/
def errorEnvelope (e d : String) : JsValue :=
  .obj (.cons "error" (.str e) (.cons "details" (.str d) .nil))

/-- The `\x7b error: 'Error response' \x7d` placeholder sent for non-ok
backend statuses (line 136). -/
def errorResponseObj : JsValue :=
  .obj (.cons "error" (.str "Error response") .nil)

/-- A one-field `\x7b error: msg \x7d` body (missing-configuration 500s). -/
def errorOnly (msg : String) : JsValue :=
  .obj (.cons "error" (.str msg) .nil)

/-- Lines 68–71: `!isVercel && req.headers.origin &&
allowedOrigins.includes(req.headers.origin) ? req.headers.origin :
frontendUrl` (an absent or empty origin header is falsy). -/
def resolveOrigin (vercelEnv : Option String) (reqHeaders : List (String × String))
    (frontendUrl : String) : String :=
  let isVercel := vercelEnv = some "true"
  match lookupObj reqHeaders "origin" with
  | some o => if ¬ isVercel ∧ o ≠ "" ∧ allowedOrigins.contains o then o else frontendUrl
  | none => frontendUrl

/-- Lines 126–128 (and 78–80): the three CORS headers set before relaying. -/
def corsBaseHeaders (origin : String) : List (String × String) :=
  setHdr (setHdr (setHdr [] "Access-Control-Allow-Origin" origin)
    "Access-Control-Allow-Methods" "GET,POST,PUT,DELETE,OPTIONS")
    "Access-Control-Allow-Headers" "Content-Type,Authorization"

/-- Lines 78–81: the preflight headers, including the max-age. -/
def corsOptionsHeaders (origin : String) : List (String × String) :=
  setHdr (corsBaseHeaders origin) "Access-Control-Max-Age" "86400"

/-- Line 85: `req.url?.replace(/^\/api/, '/api') || ''` — the regex replaces a
leading `/api` with `/api`, i.e. keeps the path unchanged. -/
def rewriteApiPath (u : String) : String :=
  if strStarts "/api" u then "/api" ++ String.mk (u.data.drop 4) else u

/-- The characters after the first `://`, when present. -/
def afterSchemeChars : List Char → Option (List Char)
  | [] => none
  | ':' :: '/' :: '/' :: rest => some rest
  | _ :: rest => afterSchemeChars rest

/-- `new URL(u).host`: the authority (host and port) of an absolute http(s)
URL — everything between `://` and the next `/`. -/
def urlHost (u : String) : String :=
  match afterSchemeChars u.data with
  | none => ""
  | some rest => String.mk (rest.takeWhile (fun c => c ≠ '/'))

/-- Lines 88–93: spread of the inbound headers minus the platform's
`x-vercel-` ones, with `host` overwritten by the backend's host. -/
def spreadWithHost (hs : List (String × String)) (hostVal : String) :
    List (String × String) :=
  objSet (hs.filter (fun p => ! strStarts "x-vercel-" p.1)) "host" hostVal

/-- Lines 101–137: the forward-and-relay sequence, given the resolved origin,
the backend's response and the request that was sent.

Faithful to the source's body handling: when `response.ok`, the body is first
consumed by `response.text()` for the log snippet (line 110); line 136 then
calls `response.json()` on the used body. A throw after line 126 lands in the
catch block (lines 138–167) with the response headers already set; the catch
re-sets the status to 500 and sends the error envelope. -/
def relayResponse (origin : String) (br : BackendResponse) (sentReq : SentRequest) :
    ProxyResult :=
  let resp : JsResponse :=
    { status := br.status, headers := br.headers, bodyText := br.bodyText, bodyUsed := false }
  -- line 109–111: dataSnippet — consumes the body exactly when response.ok
  let afterSnippet : Except String JsResponse :=
    if resp.okStatus then (resp.textRead).map (fun p => p.2) else .ok resp
  match afterSnippet with
  | .error m =>
    -- thrown before any header was set
    { status := 500, headers := [],
      body := some (errorEnvelope "Failed to proxy request" m), sent := some sentReq }
  | .ok r1 =>
    -- lines 126–134: CORS headers, status, backend header copy
    let hs := copyHeaders (corsBaseHeaders origin) r1.headers
    -- line 136: `response.ok ? await response.json() : { error: 'Error response' }`
    match (if r1.okStatus then (r1.jsonRead).map (fun p => p.1) else .ok errorResponseObj) with
    | .ok v => { status := r1.status, headers := hs, body := some v, sent := some sentReq }
    | .error m =>
      { status := 500, headers := hs,
        body := some (errorEnvelope "Failed to proxy request" m), sent := some sentReq }

/-- Lines 85–106: the target URL (`backendUrl + req.url` after the identity
`/api` rewrite, or `''` for an absent URL), the filtered headers, and the body
(`JSON.stringify(req.body)` for methods other than GET/HEAD) handed to
`fetch`. -/
def sentRequestOf (req : ProxyReq) (backendUrl : String) : SentRequest :=
  { url := backendUrl ++ (match req.url with | some u => rewriteApiPath u | none => ""),
    method := req.method,
    headers := spreadWithHost req.headers (urlHost backendUrl),
    body :=
      if req.method ≠ "GET" ∧ req.method ≠ "HEAD" then some (jsonStringify req.body)
      else none }

/-- Lines 68–167 of `api/proxy.ts`, after the configuration checks. -/
def handlerCore (frontendUrl backendUrl : String) (vercelEnv : Option String)
    (req : ProxyReq) (outcome : FetchOutcome) : ProxyResult :=
  let origin := resolveOrigin vercelEnv req.headers frontendUrl
  if req.method = "OPTIONS" then
    { status := 204, headers := corsOptionsHeaders origin, body := none, sent := none }
  else
    let sentReq := sentRequestOf req backendUrl
    match outcome with
    | .fail e =>
      { status := 500, headers := [],
        body := some (errorEnvelope "Failed to proxy request" e.toMessage),
        sent := some sentReq }
    | .ok br => relayResponse origin br sentReq

/-- The default export of `api/proxy.ts`: configuration checks (lines 54–66),
then `handlerCore`. The `outcome` parameter is what the single outbound
`fetch` resolves to, were it reached. -/
def handler (env : ProxyEnv) (req : ProxyReq) (outcome : FetchOutcome) : ProxyResult :=
  match env.frontendUrl with
  | none =>
    { status := 500, headers := [],
      body := some (errorOnly "VITE_FRONTEND_URL environment variable is not set"),
      sent := none }
  | some frontendUrl =>
    match env.backendUrl with
    | none =>
      { status := 500, headers := [],
        body := some (errorOnly "VITE_BACKEND_URL environment variable is not set"),
        sent := none }
    | some backendUrl => handlerCore frontendUrl backendUrl env.vercelEnv req outcome

/-! ## The thumbnail-fetch proxy variant (spec-modelled)

Only the caller of the thumbnail proxy route is among the sources
(`app/utils/imageUtils.ts` requests `/api/proxy-thumbnail?url=...`); the
route's handler itself is not. -/

/-- Modelled from the spec: the thumbnail-fetch variant of the proxy handler
(the `/api/proxy-thumbnail` route used by `app/utils/imageUtils.ts`) is not
among the repository sources here. Per the spec (§4.1 step 5), the relay
copies all backend response headers, "with a special case: if the path is a
thumbnail-fetching sub-route, force a 24-hour public cache-control header
instead of passing through the backend's own cache-control value". -/
def thumbnailRelayHeaders (path : String) (backendHeaders : List (String × String)) :
    List (String × String) :=
  let copied := copyHeaders [] backendHeaders
  if strStarts "/api/proxy-thumbnail" path then
    setHdr copied "Cache-Control" "public, max-age=86400"
  else copied

/-! ## `app/utils/imageUtils.ts` -/

/-- `getDefaultImage` from `imageUtils.ts`. -/
def getDefaultImage (isAgeRestricted : Bool) : String :=
  if isAgeRestricted then "/assets/images/NSFW.jpg" else "/assets/images/consciousness.jpg"

/-- `normalizeUrl`: `null` on a falsy input, otherwise prepend `https://`
unless the URL already starts with `http`. -/
def normalizeUrl (url : Option String) : Option String :=
  match url with
  | none => none
  | some s =>
    if s = "" then none
    else if strStarts "http" s then some s else some ("https://" ++ s)

/-- JavaScript `a || b` on nullable strings: `a` unless it is null or empty
(falsy). -/
def jsOrOpt (a b : Option String) : Option String :=
  match a with
  | some s => if s ≠ "" then some s else b
  | none => b

/-- JavaScript `a || b` on strings (the empty string is falsy). -/
def jsOrElse (a b : String) : String :=
  if a ≠ "" then a else b

/-- An undefined string renders as the empty (falsy) value when tested. -/
def optStr (o : Option String) : String :=
  o.getD ""

/-- A possibly-undefined value interpolated into a template literal renders
`undefined` when absent. -/
def renderEnvVar : Option String → String
  | some s => s
  | none => "undefined"

/-- An uppercase hexadecimal digit. -/
def hexDigitU (n : Nat) : Char :=
  if n < 10 then Char.ofNat (48 + n) else Char.ofNat (55 + n)

/-- The UTF-8 bytes of a code point. -/
def utf8Bytes (n : Nat) : List Nat :=
  if n < 128 then [n]
  else if n < 2048 then [192 + n / 64, 128 + n % 64]
  else if n < 65536 then [224 + n / 4096, 128 + (n / 64) % 64, 128 + n % 64]
  else [240 + n / 262144, 128 + (n / 4096) % 64, 128 + (n / 64) % 64, 128 + n % 64]

/-- `encodeURIComponent`: unreserved characters (`A–Z a–z 0–9 - _ . ! ~ * '
( )`) pass through, everything else is percent-encoded per UTF-8 byte. -/
def encodeURIComponent (s : String) : String :=
  String.join (s.data.map (fun c =>
    if c.isAlphanum ∨ c = '-' ∨ c = '_' ∨ c = '.' ∨ c = '!' ∨ c = '~' ∨ c = '*'
        ∨ c = Char.ofNat 39 ∨ c = '(' ∨ c = ')' then
      String.mk [c]
    else
      String.join ((utf8Bytes c.toNat).map (fun b =>
        String.mk ['%', hexDigitU (b / 16), hexDigitU (b % 16)]))))

/-- A word character, `\w` of the YouTube-ID regex. -/
def ytWordChar (c : Char) : Bool :=
  c.isAlphanum ∨ c = '_'

/-- Does one of the regex's marker alternatives (`youtu.be/`, `v/`, `u/\w/`,
`embed/`, `watch?v=`, `&v=`) match at the head of `cs`? Returns its length.
(The `.` of `youtu.be` is an unescaped regex dot: any character.) -/
def ytMarkerLen : List Char → Option Nat
  | 'y' :: 'o' :: 'u' :: 't' :: 'u' :: _ :: 'b' :: 'e' :: '/' :: _ => some 9
  | 'v' :: '/' :: _ => some 2
  | 'u' :: '/' :: c :: '/' :: _ => if ytWordChar c then some 4 else none
  | 'e' :: 'm' :: 'b' :: 'e' :: 'd' :: '/' :: _ => some 6
  | 'w' :: 'a' :: 't' :: 'c' :: 'h' :: '?' :: 'v' :: '=' :: _ => some 8
  | '&' :: 'v' :: '=' :: _ => some 3
  | _ => none

/-- The greedy `^.*` of the regex makes the engine use the last position at
which a marker alternative matches. -/
def ytLastMarker (cs : List Char) : Option (Nat × Nat) :=
  (List.range (cs.length + 1)).foldl
    (fun acc i =>
      match ytMarkerLen (cs.drop i) with
      | some len => some (i, len)
      | none => acc)
    none

/-- `getYouTubeID` from `imageUtils.ts`: match the URL against
`^.*(youtu.be\/|v\/|u\/\w\/|embed\/|watch\?v=|\&v=)([^#\&\?]*).*` and keep
group 2 when it has exactly 11 characters. -/
def getYouTubeID (url : String) : Option String :=
  match ytLastMarker url.data with
  | none => none
  | some (i, len) =>
    let idChars := (url.data.drop (i + len)).takeWhile
      (fun c => c ≠ '#' ∧ c ≠ '&' ∧ c ≠ '?')
    if idChars.length = 11 then some (String.mk idChars) else none

/-- The fields of the `BlogPost` interface that `fetchThumbnail` destructures.
`postUrl` is destructured by the source although the TypeScript interface does
not declare it (the raw API object may carry it), so it is kept as an optional
field; `isAgeRestricted` is optional with destructuring default `false`. -/
structure BlogPost where
  id : String
  videoUrl : Option String
  blogImage : Option String
  isAgeRestricted : Option Bool
  embedUrl : Option String
  postUrl : Option String
  updatedAt : String

/-- The cache key of `fetchThumbnail`: `updatedAt ? id + ':' + updatedAt :
id`. -/
def thumbKey (blog : BlogPost) : String :=
  if blog.updatedAt ≠ "" then blog.id ++ ":" ++ blog.updatedAt else blog.id

/-- The module-level `thumbnailCache` object: a string-keyed map. -/
abbrev ThumbCache := List (String × String)

/-- `thumbnailCache[k]`. -/
def cacheLookup (c : ThumbCache) (k : String) : Option String :=
  lookupObj c k

/-- `thumbnailCache[k] = v`. -/
def cacheStore (c : ThumbCache) (k v : String) : ThumbCache :=
  objSet c k v

/-- The ambient state `fetchThumbnail` reads besides the cache: the
session-storage NSFW flag, the Vite environment variables, and what the
`axios.get` of `/api/proxy-thumbnail` would yield (its `response.data
.thumbnail`, where the empty string models a missing or empty field, or the
error message of a rejection). -/
structure ThumbEnv where
  nsfwDisclaimer : Option String
  vercelEnv : Option String
  frontendUrl : Option String
  localhostUrl : Option String
  axiosThumb : Except String String

/-- The outcome of one `fetchThumbnail` call: the resolved value, the new
cache, and the `/api/proxy-thumbnail` request URL when that network call was
made (`none` when it was not). -/
structure ThumbResult where
  value : String
  cache : ThumbCache
  requestUrl : Option String

/-- The body of `fetchThumbnail` (`imageUtils.ts` lines 65–123) after a cache
miss, with the module cache and the computed cache key passed explicitly.
Every failure path resolves to a fallback value (the `axios` rejection is the
only possible rejection and is caught), so the function is total.
`logGroupedMessage` only logs and is not part of the state. -/
def fetchThumbnailMiss (blog : BlogPost) (env : ThumbEnv) (cache : ThumbCache)
    (cacheKey : String) : ThumbResult :=
    let isAgeRestricted := blog.isAgeRestricted.getD false
    let nsfwAccepted := env.nsfwDisclaimer = some "true"
    if isAgeRestricted ∧ ¬ nsfwAccepted then
      let nsfwImg := "/assets/images/NSFW.jpg"
      { value := nsfwImg, cache := cacheStore cache cacheKey nsfwImg, requestUrl := none }
    else
      let urlToCheck :=
        jsOrOpt (normalizeUrl blog.videoUrl)
          (jsOrOpt (normalizeUrl blog.embedUrl) (normalizeUrl blog.postUrl))
      match urlToCheck with
      | some u =>
        match getYouTubeID u with
        | some youtubeId =>
          let thumbnailUrl :=
            if blog.updatedAt ≠ "" then
              "https://img.youtube.com/vi/" ++ youtubeId ++ "/0.jpg?v="
                ++ encodeURIComponent blog.updatedAt
            else
              "https://img.youtube.com/vi/" ++ youtubeId ++ "/0.jpg"
          { value := thumbnailUrl, cache := cacheStore cache cacheKey thumbnailUrl,
            requestUrl := none }
        | none =>
          let apiUrl :=
            (if env.vercelEnv = some "true" then renderEnvVar env.frontendUrl
             else renderEnvVar env.localhostUrl)
            ++ "/api/proxy-thumbnail?url=" ++ encodeURIComponent u
            ++ (if blog.updatedAt ≠ "" then "&v=" ++ encodeURIComponent blog.updatedAt
                else "")
          match env.axiosThumb with
          | .ok t =>
            -- `response.data.thumbnail || blogImage || getDefaultImage(...)`
            let thumbnailUrl :=
              jsOrElse t (jsOrElse (optStr blog.blogImage) (getDefaultImage isAgeRestricted))
            { value := thumbnailUrl, cache := cacheStore cache cacheKey thumbnailUrl,
              requestUrl := some apiUrl }
          | .error _ =>
            let fallback :=
              jsOrElse (optStr blog.blogImage) (getDefaultImage isAgeRestricted)
            { value := fallback, cache := cacheStore cache cacheKey fallback,
              requestUrl := some apiUrl }
      | none =>
        if optStr blog.blogImage ≠ "" then
          let b := optStr blog.blogImage
          let thumbnailUrl :=
            if blog.updatedAt ≠ "" then b ++ "?v=" ++ encodeURIComponent blog.updatedAt
            else b
          { value := thumbnailUrl, cache := cacheStore cache cacheKey thumbnailUrl,
            requestUrl := none }
        else
          let defaultImg := getDefaultImage isAgeRestricted
          { value := defaultImg, cache := cacheStore cache cacheKey defaultImg,
            requestUrl := none }

/-- `fetchThumbnail` from `imageUtils.ts` lines 65–123: compute the cache key,
serve a (truthy) cached value, and otherwise run the lookup and cache its
result. -/
def fetchThumbnail (blog : BlogPost) (env : ThumbEnv) (cache : ThumbCache) : ThumbResult :=
  let cacheKey := thumbKey blog
  -- `if (thumbnailCache[cacheKey])` — a truthiness test
  let hit : Option String :=
    match cacheLookup cache cacheKey with
    | some v => if v ≠ "" then some v else none
    | none => none
  match hit with
  | some v => { value := v, cache := cache, requestUrl := none }
  | none => fetchThumbnailMiss blog env cache cacheKey

/-! ## Claim-side definitions and concrete fixtures -/

/-- The `details` field of a JSON response body, when it is a string. -/
def detailsOf (b : Option JsValue) : Option String :=
  b.bind (fun v => (v.field "details").bind JsValue.asString)

/-- The backend response supplies no `Access-Control-Allow-Origin` header of
its own (whose copy would overwrite the relay's, `setHeader` being
case-insensitive). -/
def noAcaoOverride : FetchOutcome → Prop
  | .ok br => ∀ p ∈ br.headers, lowerStr p.1 ≠ "access-control-allow-origin"
  | .fail _ => True

/-- The value the amended claim C3 predicts for `Access-Control-Allow-Origin`:
when the deployment flag is not `'true'` and a truthy `Origin` header is in
the allow-list, that origin; otherwise the configured frontend URL. -/
def acaoSpec (vercelEnv : Option String) (reqHeaders : List (String × String))
    (frontendUrl v : String) : Prop :=
  match lookupObj reqHeaders "origin" with
  | some o =>
    if ¬ vercelEnv = some "true" ∧ o ≠ "" ∧ allowedOrigins.contains o then v = o
    else v = frontendUrl
  | none => v = frontendUrl

/-- A fully configured environment, not in the Vercel deployment mode. -/
def envStd : ProxyEnv :=
  { frontendUrl := some "https://crystalcloudpodcast.terrainfinity.ca",
    backendUrl := some "https://backend.terrainfinity.ca",
    vercelEnv := none }

/-- The same configuration with `VITE_VERCEL_ENV = 'true'`. -/
def envVercel : ProxyEnv := { envStd with vercelEnv := some "true" }

/-- The configuration with the frontend URL unset. -/
def envNoFront : ProxyEnv := { envStd with frontendUrl := none }

/-- A plain `GET /api/blogs/` request. -/
def reqGetBlogs : ProxyReq :=
  { method := "GET", url := some "/api/blogs/", headers := [], body := .null }

/-- A preflight request whose `Origin` is in the allow-list. -/
def reqOptions : ProxyReq :=
  { method := "OPTIONS", url := some "/api/blogs/",
    headers := [("origin", "http://localhost:3000")], body := .null }

/-- A `PUT` request carrying a string body, a platform header and a `host`
header. -/
def reqPut : ProxyReq :=
  { method := "PUT", url := some "/api/blogs/1",
    headers := [("x-vercel-id", "abc"), ("host", "front.example"), ("authorization", "t")],
    body := .str "a" }

/-- A backend `200` response with body `\x7b"a":1\x7d`. -/
def brOkJson : BackendResponse :=
  { status := 200, headers := [("content-type", "application/json")],
    bodyText := "\x7b\"a\":1\x7d" }

/-- A backend `404` response with body `nope`. -/
def brNotFound : BackendResponse :=
  { status := 404, headers := [], bodyText := "nope" }

/-- A backend `201` response with a JSON array body. -/
def brCreated : BackendResponse :=
  { status := 201, headers := [("content-type", "application/json")], bodyText := "[1]" }

/-! ## Helper lemmas about the header and object maps -/

theorem getHdr_setHdr_self (hs : List (String × String)) (k v : String) :
    getHdr (setHdr hs k v) k = some v := by
  induction hs with
  | nil => simp [setHdr, getHdr]
  | cons p rest ih =>
    obtain ⟨k0, v0⟩ := p
    by_cases h : k0 = lowerStr k
    · simp [setHdr, h, getHdr]
    · simp only [setHdr, h, if_false, getHdr, if_neg h]
      exact ih

theorem getHdr_setHdr_ne (hs : List (String × String)) (k v k' : String)
    (h : lowerStr k' ≠ lowerStr k) :
    getHdr (setHdr hs k v) k' = getHdr hs k' := by
  induction hs with
  | nil =>
    have h' : ¬ lowerStr k = lowerStr k' := fun hc => h hc.symm
    simp [setHdr, getHdr, h']
  | cons p rest ih =>
    obtain ⟨k0, v0⟩ := p
    by_cases h0 : k0 = lowerStr k
    · subst h0
      have h' : ¬ lowerStr k = lowerStr k' := fun hc => h hc.symm
      simp [setHdr, getHdr, h']
    · by_cases h1 : k0 = lowerStr k'
      · subst h1
        simp [setHdr, getHdr, h0]
      · simp only [setHdr, h0, if_false, getHdr, if_neg h1]
        exact ih

theorem getHdr_copyHeaders_of_not_mem (l : List (String × String))
    (init : List (String × String)) (key : String)
    (h : ∀ p ∈ l, lowerStr p.1 ≠ lowerStr key) :
    getHdr (copyHeaders init l) key = getHdr init key := by
  induction l generalizing init with
  | nil => rfl
  | cons p rest ih =>
    have h1 : lowerStr key ≠ lowerStr p.1 := fun hc => h p (by simp) hc.symm
    have step : copyHeaders init (p :: rest) = copyHeaders (setHdr init p.1 p.2) rest := rfl
    rw [step, ih (setHdr init p.1 p.2) (fun q hq => h q (by simp [hq])),
      getHdr_setHdr_ne init p.1 p.2 key h1]

theorem lookupObj_objSet_self (l : List (String × String)) (k v : String) :
    lookupObj (objSet l k v) k = some v := by
  induction l with
  | nil => simp [objSet, lookupObj]
  | cons p rest ih =>
    obtain ⟨k0, v0⟩ := p
    by_cases h : k0 = k
    · simp [objSet, h, lookupObj]
    · simp only [objSet, h, if_false, lookupObj, if_neg h]
      exact ih

theorem mem_objSet_elim (l : List (String × String)) (k v : String)
    (p : String × String) (hp : p ∈ objSet l k v) : p ∈ l ∨ p = (k, v) := by
  induction l with
  | nil => simp [objSet] at hp; exact Or.inr hp
  | cons q rest ih =>
    obtain ⟨k0, v0⟩ := q
    by_cases h : k0 = k
    · simp only [objSet, h, if_true] at hp
      rcases List.mem_cons.mp hp with h1 | h1
      · exact Or.inr h1
      · exact Or.inl (List.mem_cons_of_mem _ h1)
    · simp only [objSet, h, if_false] at hp
      rcases List.mem_cons.mp hp with h1 | h1
      · exact Or.inl (by rw [h1]; exact List.mem_cons_self _ _)
      · rcases ih h1 with h2 | h2
        · exact Or.inl (List.mem_cons_of_mem _ h2)
        · exact Or.inr h2

theorem mem_objSet_of_mem (l : List (String × String)) (k v : String)
    (p : String × String) (hp : p ∈ l) (hne : p.1 ≠ k) : p ∈ objSet l k v := by
  induction l with
  | nil => cases hp
  | cons q rest ih =>
    obtain ⟨k0, v0⟩ := q
    by_cases h : k0 = k
    · simp only [objSet, h, if_true]
      rcases List.mem_cons.mp hp with h1 | h1
      · exact absurd (by rw [h1] at hne ⊢; exact h) hne
      · exact List.mem_cons_of_mem _ h1
    · simp only [objSet, h, if_false]
      rcases List.mem_cons.mp hp with h1 | h1
      · rw [h1]; exact List.mem_cons_self _ _
      · exact List.mem_cons_of_mem _ (ih h1)

theorem str_append_ne_empty (s t : String) (h : s ≠ "") : s ++ t ≠ "" := by
  intro hc
  apply h
  have hd := congrArg String.data hc
  rw [String.data_append] at hd
  exact String.ext (by simp_all)

theorem jsOrElse_ne_empty (a b : String) (hb : b ≠ "") : jsOrElse a b ≠ "" := by
  unfold jsOrElse
  split
  · assumption
  · exact hb

/-! ## Facts about the CORS header chains and the relay -/

theorem getHdr_corsBase_origin (o : String) :
    getHdr (corsBaseHeaders o) "Access-Control-Allow-Origin" = some o := rfl

theorem getHdr_corsOptions_origin (o : String) :
    getHdr (corsOptionsHeaders o) "Access-Control-Allow-Origin" = some o := rfl

theorem getHdr_corsOptions_methods (o : String) :
    getHdr (corsOptionsHeaders o) "Access-Control-Allow-Methods"
      = some "GET,POST,PUT,DELETE,OPTIONS" := rfl

theorem getHdr_corsOptions_allowHeaders (o : String) :
    getHdr (corsOptionsHeaders o) "Access-Control-Allow-Headers"
      = some "Content-Type,Authorization" := rfl

theorem getHdr_corsOptions_maxAge (o : String) :
    getHdr (corsOptionsHeaders o) "Access-Control-Max-Age" = some "86400" := rfl

theorem relayResponse_sent (o : String) (br : BackendResponse) (s : SentRequest) :
    (relayResponse o br s).sent = some s := by
  unfold relayResponse
  by_cases hok : (200 ≤ br.status ∧ br.status ≤ 299)
  · simp [JsResponse.okStatus, JsResponse.textRead, JsResponse.jsonRead, Except.map, hok]
  · simp [JsResponse.okStatus, JsResponse.textRead, JsResponse.jsonRead, Except.map, hok]

theorem relayResponse_headers (o : String) (br : BackendResponse) (s : SentRequest) :
    (relayResponse o br s).headers = copyHeaders (corsBaseHeaders o) br.headers := by
  unfold relayResponse
  by_cases hok : (200 ≤ br.status ∧ br.status ≤ 299)
  · simp [JsResponse.okStatus, JsResponse.textRead, JsResponse.jsonRead, Except.map, hok]
  · simp [JsResponse.okStatus, JsResponse.textRead, JsResponse.jsonRead, Except.map, hok]

/-! ## Facts about the thumbnail cache -/

theorem getDefaultImage_ne_empty (b : Bool) : getDefaultImage b ≠ "" := by
  unfold getDefaultImage
  split
  · decide
  · decide

theorem cacheLookup_store_self (c : ThumbCache) (k v : String) :
    cacheLookup (cacheStore c k v) k = some v :=
  lookupObj_objSet_self c k v

theorem fetchThumbnail_of_hit (blog : BlogPost) (env : ThumbEnv) (cache : ThumbCache)
    (v : String) (h : cacheLookup cache (thumbKey blog) = some v) (hne : v ≠ "") :
    fetchThumbnail blog env cache = { value := v, cache := cache, requestUrl := none } := by
  unfold fetchThumbnail
  simp only [h, hne, ne_eq, not_false_eq_true, if_true]

theorem fetchThumbnailMiss_spec (blog : BlogPost) (env : ThumbEnv) (cache : ThumbCache)
    (key : String) :
    (fetchThumbnailMiss blog env cache key).value ≠ "" ∧
    (fetchThumbnailMiss blog env cache key).cache
      = cacheStore cache key (fetchThumbnailMiss blog env cache key).value := by
  unfold fetchThumbnailMiss
  dsimp only
  split
  · exact ⟨show ("/assets/images/NSFW.jpg" : String) ≠ "" by decide, rfl⟩
  · split
    · split
      · split
        · exact ⟨str_append_ne_empty _ _ (str_append_ne_empty _ _ (str_append_ne_empty _ _
            (show ("https://img.youtube.com/vi/" : String) ≠ "" by decide))), rfl⟩
        · exact ⟨str_append_ne_empty _ _ (str_append_ne_empty _ _
            (show ("https://img.youtube.com/vi/" : String) ≠ "" by decide)), rfl⟩
      · split
        · exact ⟨jsOrElse_ne_empty _ _ (jsOrElse_ne_empty _ _ (getDefaultImage_ne_empty _)),
            rfl⟩
        · exact ⟨jsOrElse_ne_empty _ _ (getDefaultImage_ne_empty _), rfl⟩
    · split
      next hb =>
        split
        · exact ⟨str_append_ne_empty _ _ (str_append_ne_empty _ _ hb), rfl⟩
        · exact ⟨hb, rfl⟩
      next hb => exact ⟨getDefaultImage_ne_empty _, rfl⟩

theorem fetchThumbnail_val_cached (blog : BlogPost) (env : ThumbEnv) (cache : ThumbCache) :
    (fetchThumbnail blog env cache).value ≠ "" ∧
    cacheLookup (fetchThumbnail blog env cache).cache (thumbKey blog)
      = some (fetchThumbnail blog env cache).value := by
  unfold fetchThumbnail
  dsimp only
  cases hl : cacheLookup cache (thumbKey blog) with
  | some v =>
    by_cases hv : v = ""
    · -- a stale empty value is falsy: the lookup runs and re-caches
      simp only [hv, ne_eq, not_true_eq_false, if_false]
      show (fetchThumbnailMiss blog env cache (thumbKey blog)).value ≠ "" ∧
        cacheLookup (fetchThumbnailMiss blog env cache (thumbKey blog)).cache (thumbKey blog)
          = some (fetchThumbnailMiss blog env cache (thumbKey blog)).value
      obtain ⟨h1, h2⟩ := fetchThumbnailMiss_spec blog env cache (thumbKey blog)
      refine ⟨h1, ?_⟩
      rw [h2]
      exact cacheLookup_store_self _ _ _
    · simp only [ne_eq, hv, not_false_eq_true, if_true]
      exact ⟨trivial, hl⟩
  | none =>
    show (fetchThumbnailMiss blog env cache (thumbKey blog)).value ≠ "" ∧
      cacheLookup (fetchThumbnailMiss blog env cache (thumbKey blog)).cache (thumbKey blog)
        = some (fetchThumbnailMiss blog env cache (thumbKey blog)).value
    obtain ⟨h1, h2⟩ := fetchThumbnailMiss_spec blog env cache (thumbKey blog)
    refine ⟨h1, ?_⟩
    rw [h2]
    exact cacheLookup_store_self _ _ _

/-! ## Unfolding lemmas for the handler -/

theorem handler_of_config (env : ProxyEnv) (req : ProxyReq) (outcome : FetchOutcome)
    (f b : String) (hf : env.frontendUrl = some f) (hb : env.backendUrl = some b) :
    handler env req outcome = handlerCore f b env.vercelEnv req outcome := by
  unfold handler
  rw [hf, hb]

theorem handlerCore_options (f b : String) (ve : Option String) (req : ProxyReq)
    (outcome : FetchOutcome) (hm : req.method = "OPTIONS") :
    handlerCore f b ve req outcome =
      { status := 204, headers := corsOptionsHeaders (resolveOrigin ve req.headers f),
        body := none, sent := none } := by
  unfold handlerCore
  dsimp only
  rw [if_pos hm]

theorem handlerCore_fail (f b : String) (ve : Option String) (req : ProxyReq)
    (e : JsError) (hm : req.method ≠ "OPTIONS") :
    handlerCore f b ve req (.fail e) =
      { status := 500, headers := [],
        body := some (errorEnvelope "Failed to proxy request" e.toMessage),
        sent := some (sentRequestOf req b) } := by
  unfold handlerCore
  dsimp only
  rw [if_neg hm]

theorem handlerCore_ok (f b : String) (ve : Option String) (req : ProxyReq)
    (br : BackendResponse) (hm : req.method ≠ "OPTIONS") :
    handlerCore f b ve req (.ok br) =
      relayResponse (resolveOrigin ve req.headers f) br (sentRequestOf req b) := by
  unfold handlerCore
  dsimp only
  rw [if_neg hm]

theorem acaoSpec_resolveOrigin (ve : Option String) (hs : List (String × String)) (f : String) :
    acaoSpec ve hs f (resolveOrigin ve hs f) := by
  unfold acaoSpec resolveOrigin
  cases lookupObj hs "origin" with
  | none => rfl
  | some o =>
    dsimp only
    split
    next hc => rfl
    next hc => rfl

/-! ## Claim theorems -/

/-- Claim C1. The claim states that a `GET /api/blogs/` whose backend fetch
resolves `200` with body `\x7b"a":1\x7d` is relayed as `200` with that body and
the CORS headers. The code does not do this: line 110 consumes the body with
`response.text()` (for the log snippet) and line 136 then calls
`response.json()` on the already-used body, which throws, so the catch block
answers `500` with the error envelope (the CORS headers, already set on line
126, do remain). This theorem evaluates the handler at exactly the claim's
input and exhibits the divergence. -/
theorem get_blogs_double_read_eval :
    (handler envStd reqGetBlogs (.ok brOkJson)).status = 500 ∧
    (handler envStd reqGetBlogs (.ok brOkJson)).body
      = some (errorEnvelope "Failed to proxy request" "Body is unusable") ∧
    getHdr (handler envStd reqGetBlogs (.ok brOkJson)).headers "Access-Control-Allow-Origin"
      = some "https://crystalcloudpodcast.terrainfinity.ca" ∧
    jsonParse brOkJson.bodyText = .ok (.obj (.cons "a" (.num 1) .nil)) :=
  ⟨rfl, rfl, rfl, rfl⟩

/-- Claim C2. The claim states that every backend body is relayed unmodified
with its original status. The code instead replaces the body of every non-ok
response with `\x7b error: 'Error response' \x7d` (line 136) while keeping the
status, and never relays an ok body at all (the double body read of lines
110/136 throws — see the C1 theorem). This theorem evaluates the handler at a
backend `404` with body `nope` and shows the relayed body is the placeholder
object, not the original text. -/
theorem backend_error_body_replaced_eval :
    (handler envStd reqGetBlogs (.ok brNotFound)).status = 404 ∧
    (handler envStd reqGetBlogs (.ok brNotFound)).body = some errorResponseObj ∧
    brNotFound.bodyText = "nope" ∧
    (handler envStd reqGetBlogs (.ok brNotFound)).body ≠ some (.str brNotFound.bodyText) := by
  refine ⟨rfl, rfl, rfl, ?_⟩
  intro h
  exact JsValue.noConfusion (Option.some.inj h)

/-- Counterexample to claim C3 as stated: with `VITE_VERCEL_ENV = 'true'`, a
request whose `Origin` (`http://localhost:3000`) is in the allow-list still
gets the configured frontend URL echoed, not its origin — the origin echo is
gated on `!isVercel` (line 69), which the claim omits. -/
theorem acao_vercel_flag_counterexample :
    allowedOrigins.contains "http://localhost:3000" = true ∧
    lookupObj reqOptions.headers "origin" = some "http://localhost:3000" ∧
    getHdr (handler envVercel reqOptions (.ok brOkJson)).headers "Access-Control-Allow-Origin"
      = some "https://crystalcloudpodcast.terrainfinity.ca" ∧
    ("https://crystalcloudpodcast.terrainfinity.ca" : String) ≠ "http://localhost:3000" :=
  ⟨by decide, rfl, rfl, by decide⟩

/-- Claim C3, amended: whenever a response of the handler carries an
`Access-Control-Allow-Origin` header — and the backend response did not
itself supply one for the copy loop to overwrite — its value follows the
allow-list rule gated on the deployment flag: if `VITE_VERCEL_ENV` is not
`'true'` and the request's `Origin` is a non-empty member of the allow-list,
it equals that origin; otherwise it equals the configured frontend URL. -/
theorem acao_follows_allow_list (env : ProxyEnv) (req : ProxyReq) (outcome : FetchOutcome)
    (f : String) (hf : env.frontendUrl = some f) (hover : noAcaoOverride outcome)
    (v : String)
    (hv : getHdr (handler env req outcome).headers "Access-Control-Allow-Origin" = some v) :
    acaoSpec env.vercelEnv req.headers f v := by
  have hres : v = resolveOrigin env.vercelEnv req.headers f := by
    cases hb : env.backendUrl with
    | none =>
      unfold handler at hv
      rw [hf, hb] at hv
      simp [getHdr] at hv
    | some b =>
      rw [handler_of_config env req outcome f b hf hb] at hv
      by_cases hm : req.method = "OPTIONS"
      · rw [handlerCore_options f b env.vercelEnv req outcome hm] at hv
        have hv' : getHdr (corsOptionsHeaders (resolveOrigin env.vercelEnv req.headers f))
            "Access-Control-Allow-Origin" = some v := hv
        rw [getHdr_corsOptions_origin] at hv'
        exact (Option.some.inj hv').symm
      · cases outcome with
        | fail e =>
          rw [handlerCore_fail f b env.vercelEnv req e hm] at hv
          simp [getHdr] at hv
        | ok br =>
          rw [handlerCore_ok f b env.vercelEnv req br hm] at hv
          have hv' : getHdr (copyHeaders
              (corsBaseHeaders (resolveOrigin env.vercelEnv req.headers f)) br.headers)
              "Access-Control-Allow-Origin" = some v := by
            rw [← relayResponse_headers (resolveOrigin env.vercelEnv req.headers f) br
              (sentRequestOf req b)]
            exact hv
          have hnib : ∀ p ∈ br.headers,
              lowerStr p.1 ≠ lowerStr "Access-Control-Allow-Origin" := by
            intro p hp
            exact hover p hp
          rw [getHdr_copyHeaders_of_not_mem br.headers _ _ hnib,
            getHdr_corsBase_origin] at hv'
          exact (Option.some.inj hv').symm
  rw [hres]
  exact acaoSpec_resolveOrigin env.vercelEnv req.headers f

/-- Witness for the amended claim C3 at a concrete input: configured
environment, not in Vercel mode, preflight request with allow-listed origin
`http://localhost:3000`, whose echoed `Access-Control-Allow-Origin` satisfies
the allow-list rule. -/
theorem acao_follows_allow_list_witness :
    acaoSpec envStd.vercelEnv reqOptions.headers
      "https://crystalcloudpodcast.terrainfinity.ca" "http://localhost:3000" :=
  acao_follows_allow_list envStd reqOptions (.fail (.err "unused"))
    "https://crystalcloudpodcast.terrainfinity.ca" rfl trivial
    "http://localhost:3000" rfl

/-- Claim C4: with both environment URLs configured, an `OPTIONS` request
makes no backend call and yields `204` with the three CORS headers and the
max-age set, and no body. -/
theorem options_preflight_short_circuit (env : ProxyEnv) (req : ProxyReq)
    (outcome : FetchOutcome) (f b : String)
    (hf : env.frontendUrl = some f) (hb : env.backendUrl = some b)
    (hm : req.method = "OPTIONS") :
    (handler env req outcome).status = 204 ∧
    (handler env req outcome).sent = none ∧
    (handler env req outcome).body = none ∧
    (∃ o, getHdr (handler env req outcome).headers "Access-Control-Allow-Origin" = some o) ∧
    getHdr (handler env req outcome).headers "Access-Control-Allow-Methods"
      = some "GET,POST,PUT,DELETE,OPTIONS" ∧
    getHdr (handler env req outcome).headers "Access-Control-Allow-Headers"
      = some "Content-Type,Authorization" ∧
    getHdr (handler env req outcome).headers "Access-Control-Max-Age" = some "86400" := by
  rw [handler_of_config env req outcome f b hf hb,
    handlerCore_options f b env.vercelEnv req outcome hm]
  exact ⟨rfl, rfl, rfl, ⟨resolveOrigin env.vercelEnv req.headers f,
    getHdr_corsOptions_origin _⟩, getHdr_corsOptions_methods _,
    getHdr_corsOptions_allowHeaders _, getHdr_corsOptions_maxAge _⟩

/-- Witness for claim C4 at a concrete preflight request. -/
theorem options_preflight_short_circuit_witness :
    (handler envStd reqOptions (.ok brOkJson)).status = 204 ∧
    (handler envStd reqOptions (.ok brOkJson)).sent = none ∧
    (handler envStd reqOptions (.ok brOkJson)).body = none ∧
    (∃ o, getHdr (handler envStd reqOptions (.ok brOkJson)).headers
      "Access-Control-Allow-Origin" = some o) ∧
    getHdr (handler envStd reqOptions (.ok brOkJson)).headers "Access-Control-Allow-Methods"
      = some "GET,POST,PUT,DELETE,OPTIONS" ∧
    getHdr (handler envStd reqOptions (.ok brOkJson)).headers "Access-Control-Allow-Headers"
      = some "Content-Type,Authorization" ∧
    getHdr (handler envStd reqOptions (.ok brOkJson)).headers "Access-Control-Max-Age"
      = some "86400" :=
  options_preflight_short_circuit envStd reqOptions (.ok brOkJson)
    "https://crystalcloudpodcast.terrainfinity.ca" "https://backend.terrainfinity.ca"
    rfl rfl rfl

/-- Claim C5 (spec-modelled): on the thumbnail route, the relay carries
`Cache-Control: public, max-age=86400`, whatever cache-control the backend
response had. -/
theorem thumbnail_cache_control_forced (path : String) (bh : List (String × String))
    (h : strStarts "/api/proxy-thumbnail" path = true) :
    getHdr (thumbnailRelayHeaders path bh) "Cache-Control" = some "public, max-age=86400" := by
  unfold thumbnailRelayHeaders
  dsimp only
  rw [if_pos h]
  exact getHdr_setHdr_self _ _ _

/-- Witness for claim C5: a thumbnail-route path, a backend that sets a
different cache-control. -/
theorem thumbnail_cache_control_forced_witness :
    getHdr (thumbnailRelayHeaders "/api/proxy-thumbnail?url=https%3A%2F%2Fx"
      [("cache-control", "no-store"), ("content-type", "image/png")]) "Cache-Control"
      = some "public, max-age=86400" :=
  thumbnail_cache_control_forced "/api/proxy-thumbnail?url=https%3A%2F%2Fx"
    [("cache-control", "no-store"), ("content-type", "image/png")] (by decide)

/-- Counterexample to claim C6 as stated: the claim promises a non-empty
`details` string for any exception thrown during the forward; for a thrown
`Error` whose `message` is empty, `details` is the empty string. -/
theorem proxy_failure_details_empty_counterexample :
    (handler envStd reqGetBlogs (.fail (.err ""))).status = 500 ∧
    detailsOf (handler envStd reqGetBlogs (.fail (.err ""))).body = some "" ∧
    (∀ d, detailsOf (handler envStd reqGetBlogs (.fail (.err ""))).body = some d → d = "") := by
  refine ⟨rfl, rfl, ?_⟩
  intro d hd
  exact (Option.some.inj hd).symm

/-- Claim C6, amended: when the backend fetch of a forwarded request fails,
the relay answers `500` with the JSON envelope whose `error` is `Failed to
proxy request` and whose `details` equals the thrown value's message string
(hence non-empty exactly when that message is non-empty). -/
theorem proxy_failure_envelope (env : ProxyEnv) (req : ProxyReq) (e : JsError)
    (f b : String) (hf : env.frontendUrl = some f) (hb : env.backendUrl = some b)
    (hm : req.method ≠ "OPTIONS") :
    (handler env req (.fail e)).status = 500 ∧
    (handler env req (.fail e)).body
      = some (errorEnvelope "Failed to proxy request" e.toMessage) ∧
    detailsOf (handler env req (.fail e)).body = some e.toMessage := by
  rw [handler_of_config env req (.fail e) f b hf hb,
    handlerCore_fail f b env.vercelEnv req e hm]
  exact ⟨rfl, rfl, rfl⟩

/-- Witness for the amended claim C6: a DNS-style failure with a non-empty
message yields the envelope with that message as `details`. -/
theorem proxy_failure_envelope_witness :
    (handler envStd reqGetBlogs (.fail (.err "getaddrinfo ENOTFOUND backend"))).status = 500 ∧
    (handler envStd reqGetBlogs (.fail (.err "getaddrinfo ENOTFOUND backend"))).body
      = some (errorEnvelope "Failed to proxy request" "getaddrinfo ENOTFOUND backend") ∧
    detailsOf (handler envStd reqGetBlogs (.fail (.err "getaddrinfo ENOTFOUND backend"))).body
      = some "getaddrinfo ENOTFOUND backend" :=
  proxy_failure_envelope envStd reqGetBlogs (.err "getaddrinfo ENOTFOUND backend")
    "https://crystalcloudpodcast.terrainfinity.ca" "https://backend.terrainfinity.ca"
    rfl rfl (by decide)

/-- Claim C7: whatever the method, a missing frontend or backend URL makes the
handler answer `500` with the JSON error naming the missing variable, and no
backend forward occurs. (The handler does post diagnostics to an external log
endpoint, which is not the backend forward.) -/
theorem missing_config_fails_fast (env : ProxyEnv) (req : ProxyReq) (outcome : FetchOutcome)
    (h : env.frontendUrl = none ∨ env.backendUrl = none) :
    (handler env req outcome).status = 500 ∧
    (handler env req outcome).sent = none ∧
    (env.frontendUrl = none →
      (handler env req outcome).body
        = some (errorOnly "VITE_FRONTEND_URL environment variable is not set")) ∧
    (env.frontendUrl ≠ none → env.backendUrl = none →
      (handler env req outcome).body
        = some (errorOnly "VITE_BACKEND_URL environment variable is not set")) := by
  cases hf : env.frontendUrl with
  | none =>
    unfold handler
    rw [hf]
    exact ⟨rfl, rfl, fun _ => rfl, fun hc _ => absurd rfl hc⟩
  | some f =>
    have hb : env.backendUrl = none := by
      rcases h with h | h
      · rw [hf] at h; exact Option.noConfusion h
      · exact h
    unfold handler
    rw [hf, hb]
    exact ⟨rfl, rfl, fun hc => Option.noConfusion hc, fun _ _ => rfl⟩

/-- Witness for claim C7: frontend URL unset. -/
theorem missing_config_fails_fast_witness :
    (handler envNoFront reqGetBlogs (.ok brOkJson)).status = 500 ∧
    (handler envNoFront reqGetBlogs (.ok brOkJson)).sent = none ∧
    (envNoFront.frontendUrl = none →
      (handler envNoFront reqGetBlogs (.ok brOkJson)).body
        = some (errorOnly "VITE_FRONTEND_URL environment variable is not set")) ∧
    (envNoFront.frontendUrl ≠ none → envNoFront.backendUrl = none →
      (handler envNoFront reqGetBlogs (.ok brOkJson)).body
        = some (errorOnly "VITE_BACKEND_URL environment variable is not set")) :=
  missing_config_fails_fast envNoFront reqGetBlogs (.ok brOkJson) (Or.inl rfl)

/-- Counterexample to claim C8 as stated: for a `PUT` whose inbound body is
already the string `a`, the body sent to the backend is `"a"` (with quotes) —
`JSON.stringify` is applied unconditionally, not only to non-strings — and
the headers sent are not the original ones: `host` is overwritten with the
backend host (and `x-vercel-*` headers are dropped). -/
theorem body_always_stringified_counterexample :
    (handler envStd reqPut (.fail (.err "boom"))).sent
      = some { url := "https://backend.terrainfinity.ca/api/blogs/1", method := "PUT",
               headers := [("host", "backend.terrainfinity.ca"), ("authorization", "t")],
               body := some "\"a\"" } ∧
    reqPut.body = JsValue.str "a" ∧
    ("\"a\"" : String) ≠ "a" ∧
    lookupObj reqPut.headers "host" = some "front.example" :=
  ⟨rfl, rfl, by decide, rfl⟩

/-- Claim C8, amended: every forwarded request sends the original method; its
headers are the inbound ones minus the `x-vercel-*` platform headers, with
`host` overwritten by the backend host (other entries are preserved); a body
is sent exactly when the method is neither GET nor HEAD, and that body is
always `JSON.stringify(req.body)`, including when the inbound body is already
a string. -/
theorem forwarded_request_shape (env : ProxyEnv) (req : ProxyReq) (outcome : FetchOutcome)
    (f b : String) (hf : env.frontendUrl = some f) (hb : env.backendUrl = some b)
    (hm : req.method ≠ "OPTIONS") :
    (handler env req outcome).sent = some (sentRequestOf req b) ∧
    (sentRequestOf req b).method = req.method ∧
    lookupObj (sentRequestOf req b).headers "host" = some (urlHost b) ∧
    (∀ p ∈ (sentRequestOf req b).headers, strStarts "x-vercel-" p.1 = false) ∧
    (∀ p ∈ req.headers, strStarts "x-vercel-" p.1 = false → p.1 ≠ "host" →
      p ∈ (sentRequestOf req b).headers) ∧
    ((req.method = "GET" ∨ req.method = "HEAD") → (sentRequestOf req b).body = none) ∧
    (req.method ≠ "GET" → req.method ≠ "HEAD" →
      (sentRequestOf req b).body = some (jsonStringify req.body)) := by
  refine ⟨?_, rfl, lookupObj_objSet_self _ _ _, ?_, ?_, ?_, ?_⟩
  · rw [handler_of_config env req outcome f b hf hb]
    cases outcome with
    | fail e => rw [handlerCore_fail f b env.vercelEnv req e hm]
    | ok br =>
      rw [handlerCore_ok f b env.vercelEnv req br hm]
      exact relayResponse_sent _ _ _
  · intro p hp
    rcases mem_objSet_elim _ _ _ p hp with h1 | h1
    · have hmem := List.mem_filter.mp h1
      simpa using hmem.2
    · rw [h1]
      exact (by decide : strStarts "x-vercel-" "host" = false)
  · intro p hp hxv hhost
    exact mem_objSet_of_mem _ _ _ p (List.mem_filter.mpr ⟨hp, by simp [hxv]⟩) hhost
  · intro hgh
    rcases hgh with h | h
    · simp [sentRequestOf, h]
    · simp [sentRequestOf, h]
  · intro hg hh
    simp [sentRequestOf, hg, hh]

/-- Witness for the amended claim C8 at the concrete `PUT` request. -/
theorem forwarded_request_shape_witness :
    (handler envStd reqPut (.fail (.err "boom"))).sent
      = some (sentRequestOf reqPut "https://backend.terrainfinity.ca") ∧
    (sentRequestOf reqPut "https://backend.terrainfinity.ca").method = reqPut.method ∧
    lookupObj (sentRequestOf reqPut "https://backend.terrainfinity.ca").headers "host"
      = some (urlHost "https://backend.terrainfinity.ca") ∧
    (∀ p ∈ (sentRequestOf reqPut "https://backend.terrainfinity.ca").headers,
      strStarts "x-vercel-" p.1 = false) ∧
    (∀ p ∈ reqPut.headers, strStarts "x-vercel-" p.1 = false → p.1 ≠ "host" →
      p ∈ (sentRequestOf reqPut "https://backend.terrainfinity.ca").headers) ∧
    ((reqPut.method = "GET" ∨ reqPut.method = "HEAD") →
      (sentRequestOf reqPut "https://backend.terrainfinity.ca").body = none) ∧
    (reqPut.method ≠ "GET" → reqPut.method ≠ "HEAD" →
      (sentRequestOf reqPut "https://backend.terrainfinity.ca").body
        = some (jsonStringify reqPut.body)) :=
  forwarded_request_shape envStd reqPut (.fail (.err "boom"))
    "https://crystalcloudpodcast.terrainfinity.ca" "https://backend.terrainfinity.ca"
    rfl rfl (by decide)

/-- Counterexample to claim C9 as stated: a backend `201` answer makes the
handler fail on the second body read after the CORS headers were already set
(line 126); the resulting forwarding-failure `500` response therefore does
carry `Access-Control-Allow-Origin`, contradicting the claim that error-path
responses carry no CORS headers. -/
theorem error_path_cors_counterexample :
    (handler envStd reqGetBlogs (.ok brCreated)).status = 500 ∧
    (handler envStd reqGetBlogs (.ok brCreated)).body
      = some (errorEnvelope "Failed to proxy request" "Body is unusable") ∧
    getHdr (handler envStd reqGetBlogs (.ok brCreated)).headers "Access-Control-Allow-Origin"
      = some "https://crystalcloudpodcast.terrainfinity.ca" :=
  ⟨rfl, rfl, rfl⟩

/-- Claim C9, amended: the missing-configuration `500` responses, and the
forwarding-failure `500` produced when the `fetch` call itself fails, carry no
headers at all (in particular no CORS headers). (When the failure occurs after
a backend response arrived — the body re-read — the `500` retains the headers
already set; see the counterexample.) -/
theorem early_error_paths_no_headers (env : ProxyEnv) (req : ProxyReq)
    (outcome : FetchOutcome)
    (h : env.frontendUrl = none ∨ env.backendUrl = none ∨
      (req.method ≠ "OPTIONS" ∧ ∃ e, outcome = .fail e)) :
    (handler env req outcome).headers = [] := by
  cases hf : env.frontendUrl with
  | none =>
    unfold handler
    rw [hf]
  | some f =>
    cases hb : env.backendUrl with
    | none =>
      unfold handler
      rw [hf, hb]
    | some b =>
      rcases h with h | h | ⟨hm, e, ho⟩
      · rw [hf] at h; exact Option.noConfusion h
      · rw [hb] at h; exact Option.noConfusion h
      · subst ho
        rw [handler_of_config env req _ f b hf hb,
          handlerCore_fail f b env.vercelEnv req e hm]

/-- Witness for the amended claim C9: missing frontend URL. -/
theorem early_error_paths_no_headers_witness :
    (handler envNoFront reqGetBlogs (.ok brOkJson)).headers = [] :=
  early_error_paths_no_headers envNoFront reqGetBlogs (.ok brOkJson) (Or.inl rfl)

/-- Claim C10: `fetchThumbnail` always resolves to a non-empty string (its
Lean embedding is total over every axios outcome, including rejection — every
internal failure falls back to an image URL), the result is stored in the
module cache under the key derived from the post's `id` and `updatedAt`, and
a second call with the same key returns the identical string from the cache
without the `/api/proxy-thumbnail` network call, whatever the ambient
environment of the second call. -/
theorem fetchThumbnail_nonempty_cached (blog : BlogPost) (env : ThumbEnv)
    (cache : ThumbCache) :
    (fetchThumbnail blog env cache).value ≠ "" ∧
    cacheLookup (fetchThumbnail blog env cache).cache (thumbKey blog)
      = some (fetchThumbnail blog env cache).value ∧
    ∀ env2, fetchThumbnail blog env2 (fetchThumbnail blog env cache).cache
      = { value := (fetchThumbnail blog env cache).value,
          cache := (fetchThumbnail blog env cache).cache, requestUrl := none } := by
  obtain ⟨h1, h2⟩ := fetchThumbnail_val_cached blog env cache
  exact ⟨h1, h2, fun env2 => fetchThumbnail_of_hit blog env2 _ _ h2 h1⟩

end CCP
